import Mathlib

/-!
# Verification of the order-state synchronization core (HomeView.tsx)

Shallow embedding of `src/src/modules/home/HomeView.tsx`: the order store
(the `orders` React state), the WebSocket message dispatcher (`onmessage`),
the connection lifecycle (`connectWebSocket`, `onopen`, `onclose`,
disconnect button), and the reconciliation fetch (`fetchOrders`).

Modelling conventions:
- JavaScript values that may be `undefined` at runtime (optional fields,
  fields absent from a loosely-typed network payload) are `Option` values;
  `undefined === undefined` is `true` in JS, matching `none = none`.
- Numbers are modelled as `ℚ` (the payloads carry decimal money values).
- Each handler returns the new component state paired with the list of
  out-of-band observables it emits (alert boxes and console output); the
  component state itself holds only the React `useState` hooks plus the
  socket bookkeeping, with ghost fields recording created-and-not-closed
  sockets, issued reconciliation fetches and `onopen` firings.
-/

/-- `ResponseOrderItemDTO` from HomeView.tsx. -/
structure ResponseOrderItemDTO where
  orderItemID : String
  itemID : String
  itemName : Option String
  soldPrice : ℚ
  discountedPercentage : Option ℚ
  taxedPercentage : ℚ
  quantity : ℚ
deriving Repr, DecidableEq

/-- `ResponseOrderDTO` from HomeView.tsx.  `orderID` is declared `string`
in the TypeScript interface, but a network payload can arrive without it,
in which case the field reads as `undefined`; hence `Option String`. -/
structure ResponseOrderDTO where
  orderID : Option String
  branchID : Option String
  orderNumber : Int
  orderType : String
  orderStatus : String
  orderNote : Option String
  orderCancelMessage : Option String
  paymentType : String
  totalPrice : ℚ
  isPaid : Bool
  createdAt : String
  items : List ResponseOrderItemDTO
deriving Repr, DecidableEq

/-- `handleNewOrder` from HomeView.tsx (lines 159-168): the `setOrders`
updater; if an order with the same `orderID` exists, every such entry is
replaced, otherwise the order is appended. -/
def handleNewOrder (order : ResponseOrderDTO) (prev : List ResponseOrderDTO) :
    List ResponseOrderDTO :=
  if prev.any (fun o => o.orderID == order.orderID) then
    prev.map (fun o => if o.orderID == order.orderID then order else o)
  else
    prev ++ [order]

/-- `handleStatusChange` from HomeView.tsx (lines 171-177): the `setOrders`
updater; entries whose `orderID` matches are replaced by the updated order,
everything else (including the case of no match at all) is kept. -/
def handleStatusChange (updatedOrder : ResponseOrderDTO)
    (prev : List ResponseOrderDTO) : List ResponseOrderDTO :=
  prev.map (fun order =>
    if order.orderID == updatedOrder.orderID then updatedOrder else order)

/-- The line total rendered in the order items table of HomeView.tsx
(lines 632-640): `quantity * soldPrice * (1 - (discountedPercentage || 0)
/ 100) * (1 + taxedPercentage / 100)`. -/
def lineTotal (item : ResponseOrderItemDTO) : ℚ :=
  item.quantity * item.soldPrice *
    (1 - item.discountedPercentage.getD 0 / 100) *
    (1 + item.taxedPercentage / 100)

/-- The spec's formula, written from the spec's own words for comparison
with the rendered expression: `lineTotal = quantity * unitPrice *
(1 - discountPercent/100) * (1 + taxPercent/100)`, missing discount
treated as 0. -/
def specLineTotal (quantity unitPrice : ℚ) (discountPercent : Option ℚ)
    (taxPercent : ℚ) : ℚ :=
  quantity * unitPrice * (1 - discountPercent.getD 0 / 100) *
    (1 + taxPercent / 100)

/-- A store mutation event: the two WebSocket frame kinds that touch the
order store, as routed by the `onmessage` switch. -/
inductive StoreEvent where
  | newOrder (o : ResponseOrderDTO)
  | statusChanged (o : ResponseOrderDTO)
deriving Repr, DecidableEq

/-- Apply one store mutation event. -/
def applyStoreEvent (e : StoreEvent) (s : List ResponseOrderDTO) :
    List ResponseOrderDTO :=
  match e with
  | .newOrder o => handleNewOrder o s
  | .statusChanged o => handleStatusChange o s

/-- Apply a sequence of store mutation events, oldest first. -/
def applyStoreEvents (es : List StoreEvent) (s : List ResponseOrderDTO) :
    List ResponseOrderDTO :=
  es.foldl (fun acc e => applyStoreEvent e acc) s

/-- The list of orderIDs held by the store, in storage order. -/
def storeIDs (s : List ResponseOrderDTO) : List (Option String) :=
  s.map (fun o => o.orderID)

/-- A frame arriving on the WebSocket: either `JSON.parse` throws
(`unparseable`), or it parses to an object with a `type` field, an order
payload in `data`, and possibly a `connectionId`. -/
inductive RawFrame where
  | unparseable
  | frame (msgType : String) (data : ResponseOrderDTO) (connectionId : String)
deriving Repr, DecidableEq

/-- Outcome of the `axios.get` in `fetchOrders`: the promise rejects
(transport error), or resolves to an envelope with a `response` code, an
optional `data` array and a `message`. -/
inductive FetchOutcome where
  | transportError
  | apiResponse (code : Int) (data : Option (List ResponseOrderDTO))
      (message : String)
deriving Repr, DecidableEq

/-- The component state of HomeView: the `useState` hooks relevant to the
synchronization core, the `socketRef`, and ghost bookkeeping used only to
observe the model (sockets created and not yet closed, reconciliation
fetches issued and still in flight, number of `onopen` firings). -/
structure ManagerState where
  branchId : String
  isConnected : Bool
  orders : List ResponseOrderDTO
  connectionMessages : List String
  socketRef : Option Nat
  nextSocketId : Nat
  openSockets : List Nat
  issuedFetches : List String
  pendingFetches : List String
  openCount : Nat
deriving Repr, DecidableEq

/-- The initial component state (all hooks at their `useState` initial
values, no socket ever created). -/
def initState : ManagerState :=
  { branchId := ""
    isConnected := false
    orders := []
    connectionMessages := []
    socketRef := none
    nextSocketId := 0
    openSockets := []
    issuedFetches := []
    pendingFetches := []
    openCount := 0 }

/-- `connectWebSocket` from HomeView.tsx (lines 78-148), up to the point
where the handlers are installed: empty `branchId` alerts and returns;
otherwise any existing socket is closed, a connecting message is logged
and a fresh socket is created and stored in `socketRef`.  The second
component is the emitted alert, if any. -/
def connectWebSocket (st : ManagerState) : ManagerState × List String :=
  if st.branchId = "" then
    (st, ["Please enter a Branch ID"])
  else
    let stClosed :=
      match st.socketRef with
      | some s => { st with openSockets := st.openSockets.erase s }
      | none => st
    let sid := stClosed.nextSocketId
    ({ stClosed with
        connectionMessages := stClosed.connectionMessages ++
          ["Connecting to wss host /ws/orders?branchId=" ++ st.branchId ++ "..."]
        socketRef := some sid
        openSockets := stClosed.openSockets ++ [sid]
        nextSocketId := sid + 1 }, [])

/-- The `onopen` handler (lines 98-103): marks the connection live and
logs; it issues no fetch.  Fires only when a socket exists. -/
def onopen (st : ManagerState) : ManagerState × List String :=
  match st.socketRef with
  | none => (st, [])
  | some _ =>
      ({ st with
          isConnected := true
          connectionMessages := st.connectionMessages ++
            ["Connected to WebSocket server"]
          openCount := st.openCount + 1 }, [])

/-- The `onclose` handler (lines 135-138): the socket is now closed. -/
def onclose (st : ManagerState) : ManagerState × List String :=
  match st.socketRef with
  | none => (st, [])
  | some s =>
      ({ st with
          isConnected := false
          connectionMessages := st.connectionMessages ++
            ["Disconnected from WebSocket server"]
          openSockets := st.openSockets.erase s }, [])

/-- The Disconnect button (lines 330-335): closes the current socket, if
any, and logs; `socketRef` itself is not cleared. -/
def clickDisconnect (st : ManagerState) : ManagerState × List String :=
  match st.socketRef with
  | none => (st, [])
  | some s =>
      ({ st with
          openSockets := st.openSockets.erase s
          connectionMessages := st.connectionMessages ++
            ["Manually disconnected"] }, [])

/-- The `onmessage` handler (lines 105-133): `JSON.parse` failure is
caught and logged with no state change; a parsed frame is logged and then
dispatched on its `type`.  No schema validation is performed on the
payload before it reaches the store handlers. -/
def onmessage (f : RawFrame) (st : ManagerState) : ManagerState × List String :=
  match f with
  | .unparseable => (st, ["Error parsing WebSocket message"])
  | .frame msgType data connectionId =>
      let st1 := { st with
        connectionMessages := st.connectionMessages ++ ["Received: " ++ msgType] }
      if msgType = "new_order" then
        ({ st1 with orders := handleNewOrder data st1.orders }, [])
      else if msgType = "status_changed" then
        ({ st1 with orders := handleStatusChange data st1.orders },
          ["Status changed"])
      else if msgType = "connection" then
        ({ st1 with
            connectionMessages := st1.connectionMessages ++
              ["Connection established. ID: " ++ connectionId] }, [])
      else if msgType = "pong" then
        (st1, ["Ping-pong: Connection alive"])
      else
        (st1, ["Unknown message type: " ++ msgType])

/-- Feed a sequence of frames to `onmessage`, oldest first, keeping only
the evolving component state. -/
def processFrames (fs : List RawFrame) (st : ManagerState) : ManagerState :=
  fs.foldl (fun s f => (onmessage f s).1) st

/-- The continuation of `fetchOrders` (lines 196-211) once the request
settles: on `response === 200` the store is overwritten with `data || []`
and a fetched-count message is logged; any other code, and a rejected
promise, only log an error.  Nothing about the current subscription is
consulted. -/
def fetchOrdersComplete (outcome : FetchOutcome) (st : ManagerState) :
    ManagerState × List String :=
  match outcome with
  | .transportError => (st, ["Error fetching orders"])
  | .apiResponse code data message =>
      if code = 200 then
        ({ st with
            orders := data.getD []
            connectionMessages := st.connectionMessages ++
              ["Fetched " ++ toString (data.getD []).length ++ " orders"] },
          [])
      else
        (st, ["Error fetching orders: " ++ message])

/-- Editing the Branch ID input (line 315) together with the `useEffect`
on `[branchId]` (lines 180-184): the hook re-runs only when the value
actually changes, and issues a `fetchOrders` exactly when the new value is
non-empty.  The issued fetch captures the new branch id. -/
def setBranchInput (s : String) (st : ManagerState) : ManagerState × List String :=
  if s = st.branchId then (st, [])
  else
    let st1 := { st with branchId := s }
    if s = "" then (st1, [])
    else
      ({ st1 with
          issuedFetches := st1.issuedFetches ++ [s]
          pendingFetches := st1.pendingFetches ++ [s] }, [])

/-- The Refresh Orders button (line 346): issues a fetch for the current
branch id. -/
def clickRefresh (st : ManagerState) : ManagerState × List String :=
  ({ st with
      issuedFetches := st.issuedFetches ++ [st.branchId]
      pendingFetches := st.pendingFetches ++ [st.branchId] }, [])

/-- Events driving the component, serialized onto the single JS execution
context: UI interactions, socket lifecycle callbacks, inbound frames, and
the settlement of an in-flight fetch (identified by the branch it was
issued for; the continuation itself ignores that identity). -/
inductive UIEvent where
  | setBranch (s : String)
  | clickConnect
  | disconnect
  | refresh
  | socketOpen
  | socketClosed
  | wsMessage (f : RawFrame)
  | fetchResolved (branch : String) (outcome : FetchOutcome)
deriving Repr, DecidableEq

/-- One step of the component. -/
def applyUIEvent (e : UIEvent) (st : ManagerState) : ManagerState × List String :=
  match e with
  | .setBranch s => setBranchInput s st
  | .clickConnect => connectWebSocket st
  | .disconnect => clickDisconnect st
  | .refresh => clickRefresh st
  | .socketOpen => onopen st
  | .socketClosed => onclose st
  | .wsMessage f => onmessage f st
  | .fetchResolved b outcome =>
      if st.pendingFetches.contains b then
        fetchOrdersComplete outcome { st with pendingFetches := st.pendingFetches.erase b }
      else (st, [])

/-- Run a sequence of events, oldest first. -/
def runEvents (es : List UIEvent) (st : ManagerState) : ManagerState :=
  es.foldl (fun s e => (applyUIEvent e s).1) st

/-- A sample order item: quantity 2, sold price 10, 10 percent discount,
5 percent tax. -/
def sampleItem : ResponseOrderItemDTO :=
  { orderItemID := "oi1"
    itemID := "i1"
    itemName := some ("Green Tea")
    soldPrice := 10
    discountedPercentage := some (10)
    taxedPercentage := 5
    quantity := 2 }

/-- A sample well-formed order. -/
def sampleOrder : ResponseOrderDTO :=
  { orderID := some ("o1")
    branchID := some ("B1")
    orderNumber := 1
    orderType := "Dine-in"
    orderStatus := "Pending"
    orderNote := none
    orderCancelMessage := none
    paymentType := "Cash"
    totalPrice := 189 / 10
    isPaid := false
    createdAt := "2025-01-01T00:00:00Z"
    items := [sampleItem] }

/-- A payload that fails the spec's schema: its `orderID` is missing
(reads as `undefined`). -/
def noIdOrder : ResponseOrderDTO := { sampleOrder with orderID := none }

/-- An order belonging to branch A, as returned by a branch-A fetch. -/
def orderA : ResponseOrderDTO :=
  { sampleOrder with orderID := some ("a1"), branchID := some ("A") }

/-- An order belonging to branch B, as returned by a branch-B fetch. -/
def orderB : ResponseOrderDTO :=
  { sampleOrder with orderID := some ("b1"), branchID := some ("B") }

/-- Connect to branch B1 and reach the Connected state once. -/
def connectOnceTrace : List UIEvent :=
  [UIEvent.setBranch ("B1"), UIEvent.clickConnect, UIEvent.socketOpen]

/-- Connect to branch B1, disconnect, then reconnect to the same branch:
the connection enters the Connected state twice. -/
def reconnectTrace : List UIEvent :=
  connectOnceTrace ++
    [UIEvent.disconnect, UIEvent.socketClosed,
     UIEvent.clickConnect, UIEvent.socketOpen]

/-- Subscribe to branch A, then re-subscribe to branch B; the branch-B
fetch settles first, the stale branch-A fetch settles last. -/
def staleFetchTrace : List UIEvent :=
  [UIEvent.setBranch ("A"), UIEvent.clickConnect,
   UIEvent.setBranch ("B"), UIEvent.clickConnect,
   UIEvent.fetchResolved ("B") (FetchOutcome.apiResponse 200 (some [orderB]) ""),
   UIEvent.fetchResolved ("A") (FetchOutcome.apiResponse 200 (some [orderA]) "")]

/-- The socket bookkeeping invariant: either no socket is live, or the
single live socket is exactly the one held by `socketRef`. -/
def sockInv (st : ManagerState) : Prop :=
  st.openSockets = [] ∨
    ∃ s, st.socketRef = some s ∧ st.openSockets = [s]

/-- C1: `handleNewOrder` is idempotent: applying it twice with the same
order yields the same store as applying it once, on every store state. -/
theorem handleNewOrder_idempotent (o : ResponseOrderDTO)
    (prev : List ResponseOrderDTO) :
    handleNewOrder o (handleNewOrder o prev) = handleNewOrder o prev := by
  unfold handleNewOrder
  by_cases h : prev.any (fun x => x.orderID == o.orderID) = true
  · simp only [h, if_true]
    have hmem : (prev.map (fun x => if x.orderID == o.orderID then o else x)).any
        (fun x => x.orderID == o.orderID) = true := by
      rcases List.any_eq_true.mp h with ⟨x, hx, hbeq⟩
      refine List.any_eq_true.mpr ⟨o, ?_, by simp⟩
      refine List.mem_map.mpr ⟨x, hx, ?_⟩
      simp [hbeq]
    simp only [hmem, if_true, List.map_map]
    refine List.map_congr_left ?_
    intro x _
    by_cases hx : (x.orderID == o.orderID) = true
    · simp [Function.comp, hx]
    · simp [Function.comp, hx]
  · simp only [h]
    have hself : ((prev ++ [o]).any (fun x => x.orderID == o.orderID)) = true := by
      refine List.any_eq_true.mpr ⟨o, by simp, by simp⟩
    have hnone : ∀ x ∈ prev, (x.orderID == o.orderID) = false := by
      intro x hx
      have := List.any_eq_false.mp (Bool.eq_false_iff.mpr h) x hx
      simpa using this
    have hmap : prev.map (fun x => if x.orderID == o.orderID then o else x) = prev := by
      have h1 : prev.map (fun x => if x.orderID == o.orderID then o else x) =
          prev.map id := by
        refine List.map_congr_left ?_
        intro x hx
        simp [hnone x hx]
      simpa using h1
    simp only [Bool.false_eq_true, if_false, hself, if_true, List.map_append]
    rw [hmap]
    simp

/-! ## Key uniqueness (C2) -/

lemma storeIDs_handleStatusChange (u : ResponseOrderDTO)
    (s : List ResponseOrderDTO) :
    storeIDs (handleStatusChange u s) = storeIDs s := by
  unfold storeIDs handleStatusChange
  rw [List.map_map]
  refine List.map_congr_left ?_
  intro x _
  by_cases h : (x.orderID == u.orderID) = true
  · have : x.orderID = u.orderID := by simpa using h
    simp [Function.comp, h, this]
  · simp [Function.comp, h]

lemma storeIDs_handleNewOrder_nodup (o : ResponseOrderDTO)
    (s : List ResponseOrderDTO) (h : (storeIDs s).Nodup) :
    (storeIDs (handleNewOrder o s)).Nodup := by
  unfold handleNewOrder
  by_cases hany : s.any (fun x => x.orderID == o.orderID) = true
  · simp only [hany, if_true]
    have : storeIDs (s.map (fun x => if x.orderID == o.orderID then o else x)) =
        storeIDs s := by
      unfold storeIDs
      rw [List.map_map]
      refine List.map_congr_left ?_
      intro x _
      by_cases hx : (x.orderID == o.orderID) = true
      · have : x.orderID = o.orderID := by simpa using hx
        simp [Function.comp, hx, this]
      · simp [Function.comp, hx]
    rw [this]
    exact h
  · simp only [hany, Bool.false_eq_true, if_false]
    have hnotin : o.orderID ∉ storeIDs s := by
      intro hmem
      rcases List.mem_map.mp hmem with ⟨x, hx, heq⟩
      have := List.any_eq_false.mp (Bool.eq_false_iff.mpr hany) x hx
      exact this (by simpa using heq)
    have : storeIDs (s ++ [o]) = storeIDs s ++ [o.orderID] := by
      simp [storeIDs]
    rw [this]
    simpa [List.nodup_append] using ⟨h, fun hmem => hnotin hmem⟩

/-- C2: key uniqueness is an invariant: starting from a store whose
orderIDs are pairwise distinct, after any sequence of `new_order` upserts
and `status_changed` updates the store never holds two entries with equal
orderID. -/
theorem storeIDs_nodup_invariant (es : List StoreEvent)
    (s : List ResponseOrderDTO) (h : (storeIDs s).Nodup) :
    (storeIDs (applyStoreEvents es s)).Nodup := by
  induction es generalizing s with
  | nil => simpa [applyStoreEvents] using h
  | cons e rest ih =>
      have hstep : (storeIDs (applyStoreEvent e s)).Nodup := by
        cases e with
        | newOrder o => exact storeIDs_handleNewOrder_nodup o s h
        | statusChanged o =>
            rw [applyStoreEvent, storeIDs_handleStatusChange]
            exact h
      simpa [applyStoreEvents, List.foldl_cons] using
        ih (applyStoreEvent e s) hstep

/-- C2 witness: the invariant instantiated on the empty store and one
concrete upsert. -/
theorem storeIDs_nodup_invariant_witness :
    (storeIDs (applyStoreEvents
      [StoreEvent.newOrder sampleOrder, StoreEvent.statusChanged sampleOrder]
      [])).Nodup :=
  storeIDs_nodup_invariant
    [StoreEvent.newOrder sampleOrder, StoreEvent.statusChanged sampleOrder]
    [] (by simp [storeIDs])

/-! ## Upsert semantics of the two frame kinds (C3) -/

/-- C3 counterexample: dispatching a `status_changed` frame whose orderID
is absent from the store does not insert the carried order: on the empty
store the store stays empty, while the claim requires the snapshot to be
inserted. -/
theorem statusChanged_no_insert_counterexample :
    ((onmessage (RawFrame.frame ("status_changed") sampleOrder ("")) initState).1).orders
        = []
      ∧ ([] : List ResponseOrderDTO) ≠ [sampleOrder] := by
  constructor
  · rfl
  · intro hcontra
    exact absurd hcontra (by simp)

/-- C3 amended: `new_order` is a full insert-or-replace upsert by orderID
(absent key inserts, present key fully replaces every matching entry);
`status_changed` fully replaces matching entries but inserts nothing when
the orderID is absent, leaving the store unchanged. -/
theorem dispatch_upsert_semantics (o : ResponseOrderDTO)
    (s : List ResponseOrderDTO) :
    ((∀ x ∈ s, x.orderID ≠ o.orderID) →
        handleNewOrder o s = s ++ [o] ∧ handleStatusChange o s = s)
    ∧ ((∃ x ∈ s, x.orderID = o.orderID) →
        handleNewOrder o s =
            s.map (fun x => if x.orderID == o.orderID then o else x)
          ∧ handleStatusChange o s =
            s.map (fun x => if x.orderID == o.orderID then o else x)) := by
  constructor
  · intro habs
    have hany : s.any (fun x => x.orderID == o.orderID) = false := by
      refine List.any_eq_false.mpr ?_
      intro x hx
      simpa using habs x hx
    constructor
    · unfold handleNewOrder
      simp [hany]
    · unfold handleStatusChange
      have h1 : s.map (fun x => if x.orderID == o.orderID then o else x) =
          s.map id := by
        refine List.map_congr_left ?_
        intro x hx
        simp [habs x hx]
      simpa using h1
  · intro hpres
    have hany : s.any (fun x => x.orderID == o.orderID) = true := by
      rcases hpres with ⟨x, hx, hid⟩
      exact List.any_eq_true.mpr ⟨x, hx, by simpa using hid⟩
    constructor
    · unfold handleNewOrder
      simp [hany]
    · rfl

/-- C3 amended witness: concrete instances of both halves. -/
theorem dispatch_upsert_semantics_witness :
    (handleNewOrder sampleOrder [] = [] ++ [sampleOrder]
        ∧ handleStatusChange sampleOrder [] = [])
      ∧ handleNewOrder sampleOrder [sampleOrder] =
          [sampleOrder].map
            (fun x => if x.orderID == sampleOrder.orderID then sampleOrder else x) :=
  ⟨(dispatch_upsert_semantics sampleOrder []).1 (by simp),
   ((dispatch_upsert_semantics sampleOrder [sampleOrder]).2
      ⟨sampleOrder, by simp, rfl⟩).1⟩

/-! ## Money calculator (C4) -/

/-- C4: the rendered line total agrees with the spec's formula
`quantity * unitPrice * (1 - discountPercent/100) * (1 + taxPercent/100)`,
a missing discount is treated as 0, and on quantity 2, unit price 10,
discount 10 percent, tax 5 percent the value is exactly 18.90. -/
theorem lineTotal_correct (it : ResponseOrderItemDTO) :
    lineTotal it =
        specLineTotal it.quantity it.soldPrice it.discountedPercentage
          it.taxedPercentage
      ∧ lineTotal { it with discountedPercentage := none } =
          it.quantity * it.soldPrice * (1 + it.taxedPercentage / 100)
      ∧ lineTotal sampleItem = 189 / 10 := by
  refine ⟨rfl, ?_, ?_⟩
  · simp [lineTotal]
  · norm_num [lineTotal, sampleItem]

/-! ## Dispatcher resilience (C5) -/

/-- C5 counterexample: the dispatcher performs no schema validation, so a
`new_order` frame whose payload is missing `orderId` is not dropped: on
the empty store it mutates the store, inserting the malformed payload. -/
theorem malformed_payload_mutates_store :
    ((onmessage (RawFrame.frame ("new_order") noIdOrder ("")) initState).1).orders
        = [noIdOrder]
      ∧ [noIdOrder] ≠ initState.orders := by
  constructor
  · rfl
  · simp [initState]

/-- C5 amended: an unparseable inbound frame is dropped (and logged on
the console) without any change to the component state, and the dispatch
of every subsequent frame is unaffected: deleting the unparseable frame
from any position of any frame sequence leaves the resulting state
unchanged, so an unparseable frame between two valid `new_order` frames
blocks neither.  (Parsed frames with a schema-invalid payload are NOT
dropped; see the counterexample.) -/
theorem unparseable_frame_transparent (fs1 fs2 : List RawFrame)
    (st : ManagerState) :
    processFrames (fs1 ++ RawFrame.unparseable :: fs2) st =
      processFrames (fs1 ++ fs2) st := by
  unfold processFrames
  rw [List.foldl_append, List.foldl_append, List.foldl_cons]
  rfl

/-! ## Reconciliation non-destructiveness (C6) -/

/-- C6: a failed reconciliation fetch — transport error or a non-200
application response — leaves the entire component state (and in
particular the order store) unchanged, and surfaces an error message
without terminating. -/
theorem fetch_failure_nondestructive (st : ManagerState) (code : Int)
    (data : Option (List ResponseOrderDTO)) (message : String)
    (h : code ≠ 200) :
    (fetchOrdersComplete FetchOutcome.transportError st).1 = st
      ∧ (fetchOrdersComplete (FetchOutcome.apiResponse code data message) st).1 = st
      ∧ (fetchOrdersComplete FetchOutcome.transportError st).2 ≠ []
      ∧ (fetchOrdersComplete (FetchOutcome.apiResponse code data message) st).2 ≠ [] := by
  refine ⟨rfl, ?_, by simp [fetchOrdersComplete], ?_⟩
  · simp [fetchOrdersComplete, h]
  · simp [fetchOrdersComplete, h]

/-- C6 witness: a 500 application response against the initial state. -/
theorem fetch_failure_nondestructive_witness :
    (fetchOrdersComplete (FetchOutcome.apiResponse 500 none ("server down"))
        initState).1 = initState :=
  (fetch_failure_nondestructive initState 500 none ("server down")
    (by decide)).2.1

/-! ## Connect input validation (C7) -/

/-- C7: invoking `connectWebSocket` while the branch id is empty raises
the alert and returns with the component state untouched: no socket is
created or closed, and neither the connection flag nor the store
changes. -/
theorem connect_rejects_empty_branch (st : ManagerState)
    (h : st.branchId = "") :
    connectWebSocket st = (st, ["Please enter a Branch ID"]) := by
  simp [connectWebSocket, h]

/-- C7 witness: the initial state has an empty branch id. -/
theorem connect_rejects_empty_branch_witness :
    connectWebSocket initState = (initState, ["Please enter a Branch ID"]) :=
  connect_rejects_empty_branch initState rfl

/-! ## Reconciliation on fresh subscriptions (C8) -/

/-- C8 counterexample: connecting to branch B1 enters Connected once and
has issued exactly one fetch (from the branch-id change), but after a
disconnect and a reconnect to the same branch, Connected has been entered
twice while the issued fetches are still only the original one — the
second fresh subscription triggered no reconciliation. -/
theorem reconnect_without_refetch :
    (runEvents connectOnceTrace initState).openCount = 1
      ∧ (runEvents connectOnceTrace initState).issuedFetches = ["B1"]
      ∧ (runEvents reconnectTrace initState).openCount = 2
      ∧ (runEvents reconnectTrace initState).issuedFetches = ["B1"]
      ∧ (runEvents reconnectTrace initState).issuedFetches.length <
          (runEvents reconnectTrace initState).openCount := by
  refine ⟨rfl, rfl, rfl, rfl, by decide⟩

/-- C8 amended: a reconciliation fetch is triggered exactly by the
`useEffect` on the branch id: changing the branch input to a different,
non-empty value issues one fetch for it, while entering the Connected
state (the `onopen` callback) issues none — so a reconnect to the same
branch after a disconnect performs no reconciliation. -/
theorem fetch_on_branch_change_only (st : ManagerState) (s : String)
    (h1 : s ≠ st.branchId) (h2 : s ≠ "") :
    ((setBranchInput s st).1).issuedFetches = st.issuedFetches ++ [s]
      ∧ ((onopen st).1).issuedFetches = st.issuedFetches := by
  constructor
  · simp [setBranchInput, h1, h2]
  · cases hst : st.socketRef <;> simp [onopen, hst]

/-- C8 amended witness: setting the branch id to B1 from the initial
state issues the fetch; `onopen` on the initial state issues none. -/
theorem fetch_on_branch_change_only_witness :
    ((setBranchInput ("B1") initState).1).issuedFetches =
        initState.issuedFetches ++ ["B1"]
      ∧ ((onopen initState).1).issuedFetches = initState.issuedFetches :=
  fetch_on_branch_change_only initState ("B1") (by decide) (by decide)

/-! ## Staleness of reconciliation results (C9) -/

/-- C9 counterexample: subscribe to branch A, re-subscribe to branch B;
the branch-B fetch settles first, then the stale branch-A fetch settles —
and its branch-A data overwrites the store even though the manager is now
subscribed to branch B. -/
theorem stale_fetch_overwrites_store :
    (runEvents staleFetchTrace initState).branchId = "B"
      ∧ (runEvents staleFetchTrace initState).orders = [orderA]
      ∧ orderA.branchID = some ("A")
      ∧ [orderA] ≠ ([orderB] : List ResponseOrderDTO) := by
  refine ⟨rfl, rfl, rfl, by decide⟩

/-- C9 amended: `fetchOrders` carries no epoch tag: whenever an in-flight
fetch settles with a 200 response, its data overwrites the store
unconditionally, regardless of the branch or connection the manager is
currently subscribed to — stale results are applied, never discarded. -/
theorem fetch_result_applied_unconditionally (st : ManagerState)
    (b : String) (data : List ResponseOrderDTO) (message : String)
    (h : st.pendingFetches.contains b = true) :
    ((applyUIEvent
        (UIEvent.fetchResolved b (FetchOutcome.apiResponse 200 (some data) message))
        st).1).orders = data := by
  have hmem : b ∈ st.pendingFetches := by simpa using h
  simp [applyUIEvent, hmem, fetchOrdersComplete]

/-- C9 amended witness: the fetch issued by subscribing to branch A is
applied when it settles. -/
theorem fetch_result_applied_unconditionally_witness :
    ((applyUIEvent
        (UIEvent.fetchResolved ("A")
          (FetchOutcome.apiResponse 200 (some [orderA]) ("")))
        (setBranchInput ("A") initState).1).1).orders = [orderA] :=
  fetch_result_applied_unconditionally (setBranchInput ("A") initState).1
    ("A") [orderA] ("") (by decide)

/-! ## Single live channel (C10) -/

lemma sockInv_congr (st1 st2 : ManagerState)
    (ho : st1.openSockets = st2.openSockets)
    (hr : st1.socketRef = st2.socketRef) (h : sockInv st2) : sockInv st1 := by
  unfold sockInv at *
  rw [ho, hr]
  exact h

lemma setBranchInput_sockets (s : String) (st : ManagerState) :
    ((setBranchInput s st).1).openSockets = st.openSockets ∧
      ((setBranchInput s st).1).socketRef = st.socketRef := by
  unfold setBranchInput
  by_cases h1 : s = st.branchId
  · simp [h1]
  · by_cases h2 : s = ""
    · subst h2
      simp [h1]
    · simp [h1, h2]

lemma onmessage_sockets (f : RawFrame) (st : ManagerState) :
    ((onmessage f st).1).openSockets = st.openSockets ∧
      ((onmessage f st).1).socketRef = st.socketRef := by
  cases f with
  | unparseable => exact ⟨rfl, rfl⟩
  | frame t d c =>
      unfold onmessage
      by_cases h1 : t = "new_order"
      · simp [h1]
      · by_cases h2 : t = "status_changed"
        · simp [h1, h2]
        · by_cases h3 : t = "connection"
          · simp [h1, h2, h3]
          · by_cases h4 : t = "pong"
            · simp [h1, h2, h3, h4]
            · simp [h1, h2, h3, h4]

lemma fetchOrdersComplete_sockets (o : FetchOutcome) (st : ManagerState) :
    ((fetchOrdersComplete o st).1).openSockets = st.openSockets ∧
      ((fetchOrdersComplete o st).1).socketRef = st.socketRef := by
  cases o with
  | transportError => exact ⟨rfl, rfl⟩
  | apiResponse code data message =>
      unfold fetchOrdersComplete
      by_cases h : code = 200 <;> simp [h]

lemma sockInv_connectWebSocket (st : ManagerState) (h : sockInv st) :
    sockInv (connectWebSocket st).1 := by
  unfold connectWebSocket
  by_cases hb : st.branchId = ""
  · simpa [hb] using h
  · rw [if_neg hb]
    cases href : st.socketRef with
    | none =>
        rcases h with hempty | ⟨s, hs, _⟩
        · right
          exact ⟨st.nextSocketId, by simp [href], by simp [href, hempty]⟩
        · rw [href] at hs
          exact absurd hs (by simp)
    | some s0 =>
        rcases h with hempty | ⟨s, hs, hlist⟩
        · right
          refine ⟨st.nextSocketId, by simp [href], ?_⟩
          simp [href, hempty]
        · have hss : s = s0 := by
            rw [href] at hs
            exact (Option.some.inj hs).symm
          subst hss
          right
          refine ⟨st.nextSocketId, by simp [href], ?_⟩
          simp [href, hlist]

lemma sockInv_clickDisconnect (st : ManagerState) (h : sockInv st) :
    sockInv (clickDisconnect st).1 := by
  unfold clickDisconnect
  cases href : st.socketRef with
  | none => simpa using h
  | some s0 =>
      rcases h with hempty | ⟨s, hs, hlist⟩
      · left
        simp [hempty]
      · have hss : s = s0 := by
          rw [href] at hs
          exact (Option.some.inj hs).symm
        subst hss
        left
        simp [hlist]

lemma sockInv_onclose (st : ManagerState) (h : sockInv st) :
    sockInv (onclose st).1 := by
  unfold onclose
  cases href : st.socketRef with
  | none => simpa using h
  | some s0 =>
      rcases h with hempty | ⟨s, hs, hlist⟩
      · left
        simp [hempty]
      · have hss : s = s0 := by
          rw [href] at hs
          exact (Option.some.inj hs).symm
        subst hss
        left
        simp [hlist]

lemma sockInv_applyUIEvent (e : UIEvent) (st : ManagerState) (h : sockInv st) :
    sockInv (applyUIEvent e st).1 := by
  cases e with
  | setBranch s =>
      exact sockInv_congr _ st (setBranchInput_sockets s st).1
        (setBranchInput_sockets s st).2 h
  | clickConnect => exact sockInv_connectWebSocket st h
  | disconnect => exact sockInv_clickDisconnect st h
  | refresh => simpa [applyUIEvent, clickRefresh, sockInv] using h
  | socketOpen =>
      unfold applyUIEvent
      refine sockInv_congr _ st ?_ ?_ h <;>
        cases href : st.socketRef <;> simp [onopen, href]
  | socketClosed => exact sockInv_onclose st h
  | wsMessage f =>
      exact sockInv_congr _ st (onmessage_sockets f st).1
        (onmessage_sockets f st).2 h
  | fetchResolved b outcome =>
      by_cases hc : b ∈ st.pendingFetches
      · have hc1 : st.pendingFetches.contains b = true := by simpa using hc
        refine sockInv_congr _ st ?_ ?_ h
        · simp only [applyUIEvent, hc1, if_true]
          rw [(fetchOrdersComplete_sockets outcome _).1]
        · simp only [applyUIEvent, hc1, if_true]
          rw [(fetchOrdersComplete_sockets outcome _).2]
      · simpa [applyUIEvent, hc] using h

lemma sockInv_runEvents (es : List UIEvent) (st : ManagerState)
    (h : sockInv st) : sockInv (runEvents es st) := by
  induction es generalizing st with
  | nil => simpa [runEvents] using h
  | cons e rest ih =>
      simpa [runEvents, List.foldl_cons] using
        ih (applyUIEvent e st).1 (sockInv_applyUIEvent e st h)

/-- C10: at most one live channel per manager: after any sequence of
events (connect clicks included) from the initial state, at most one
created socket is still unclosed, and any such socket is exactly the one
held by `socketRef`. -/
theorem at_most_one_live_socket (es : List UIEvent) :
    (runEvents es initState).openSockets.length ≤ 1
      ∧ ∀ s ∈ (runEvents es initState).openSockets,
          (runEvents es initState).socketRef = some s := by
  have h := sockInv_runEvents es initState (Or.inl rfl)
  rcases h with hempty | ⟨s, hs, hlist⟩
  · rw [hempty]
    exact ⟨by simp, by simp⟩
  · rw [hlist]
    refine ⟨by simp, ?_⟩
    intro t ht
    have : t = s := by simpa using ht
    subst this
    exact hs
